import Mathlib

/-!
Order controller of the shop backend.

A shallow embedding of `backend/controllers/orderController.js`.

* The order collection is a list of `Order` documents; `findById` returns the
  first document with the given `_id`; saving a loaded document rewrites the
  documents carrying its `_id`; saving a new document inserts it, and the
  unique index on `_id` refuses an `_id` that is already stored.
* Everything the controller awaits from outside is an argument: the product
  collection, the `_id` given to a new document, `Date.now()`, the answer of
  `verifyPayPalPayment`, the function `checkIfNewTransaction`, the function
  `calcPrices`, and the rendering `toString` of a stored amount.
* `Money` is the type of stored amounts. The schema and `calcPrices` are not
  part of the sources at hand, so the type is left open.
* Request ids are well-formed: a product reference is a string, an order id
  is a number, a transaction id is a string.
* A client quantity is a JSON number (any rational, the rounding to a double
  left aside), a boolean, `null`, or is absent; quantities sent as strings are
  left out. Validation done by the schema on `save` is outside the sources
  and is not modelled.
* A response records `res.statusCode` as it stands when the handler answers
  or throws: 200 unless the handler called `res.status`.
-/

namespace ProShop

/-! ## Data model -/

/-- A JavaScript number: `NaN` or a finite value. -/
inductive JsNumber where
  | nan
  | finite (q : Rat)
deriving DecidableEq, Repr

/-- The JavaScript values a client can put in `qty`. -/
inductive JsValue where
  | undefined
  | null
  | boolean (b : Bool)
  | number (x : JsNumber)
deriving DecidableEq, Repr

/-- A product document, as far as the controller reads it. -/
structure Product (Money : Type) where
  _id : String
  name : String
  image : String
  price : Money
deriving DecidableEq, Repr

/-- An element of `req.body.orderItems`: the cart line the client submits. -/
structure ClientItem (Money : Type) where
  _id : String
  name : String
  image : String
  price : Money
  qty : JsValue
deriving DecidableEq, Repr

/-- A stored line item (the object built in the `orderItems.map` callback). -/
structure OrderItem (Money : Type) where
  product : String
  name : String
  image : String
  price : Money
  qty : JsNumber
deriving DecidableEq, Repr

/-- The `paymentResult` sub-document written by `updateOrderToPaid`. -/
structure PaymentResult where
  id : String
  status : String
  update_time : String
  email_address : Option String
deriving DecidableEq, Repr

/-- An order document. -/
structure Order (Money : Type) where
  _id : Nat
  user : Nat
  orderItems : List (OrderItem Money)
  shippingAddress : String
  paymentMethod : String
  itemsPrice : Money
  taxPrice : Money
  shippingPrice : Money
  totalPrice : Money
  isPaid : Bool
  paidAt : Option Nat
  isDelivered : Bool
  deliveredAt : Option Nat
  paymentResult : Option PaymentResult
deriving DecidableEq, Repr

/-- The four amounts returned by `calcPrices`. -/
structure Prices (Money : Type) where
  itemsPrice : Money
  taxPrice : Money
  shippingPrice : Money
  totalPrice : Money
deriving DecidableEq, Repr

/-- The body of `POST /api/orders`; `orderItems` may be missing. -/
structure CreateBody (Money : Type) where
  orderItems : Option (List (ClientItem Money))
  shippingAddress : String
  paymentMethod : String
deriving DecidableEq, Repr

/-- The `payer` object of the payment body. -/
structure Payer where
  email_address : Option String
deriving DecidableEq, Repr

/-- The body of `PUT /api/orders/:id/pay`; `payer` may be missing. -/
structure PayBody where
  id : String
  status : String
  update_time : String
  payer : Option Payer
deriving DecidableEq, Repr

/-- The answer of `verifyPayPalPayment`. -/
structure Verification where
  verified : Bool
  value : String
deriving DecidableEq, Repr

/-- What a handler sends: a document, a list of documents, or a thrown error
    with the status code standing at that moment. -/
inductive Response (Money : Type) where
  | json (status : Nat) (order : Order Money)
  | jsonList (status : Nat) (orders : List (Order Money))
  | error (status : Nat) (message : String)
deriving DecidableEq, Repr

/-- The order collection. -/
abbrev Store (Money : Type) := List (Order Money)

/-! ## Collection primitives -/

section Primitives
variable {Money : Type}

/-- The query `Order.findById(id)`. -/
def findById (store : Store Money) (id : Nat) : Option (Order Money) :=
  store.find? (fun o => o._id == id)

/-- The call `order.save()` on a document that was loaded from the collection. -/
def saveExisting (store : Store Money) (order : Order Money) : Store Money :=
  store.map (fun o => if o._id = order._id then order else o)

/-- The call `order.save()` on a new document; `none` when its `_id` is taken. -/
def saveNew (store : Store Money) (order : Order Money) : Option (Store Money) :=
  if store.any (fun o => o._id == order._id) then none else some (store ++ [order])

/-- The query `Product.find` with `_id` among `ids`. -/
def productFind (products : List (Product Money)) (ids : List String) :
    List (Product Money) :=
  products.filter (fun p => ids.contains p._id)

/-- Whether an order carries transaction id `tx` in `paymentResult.id`. -/
def hasTransaction (tx : String) (o : Order Money) : Bool :=
  match o.paymentResult with
  | some r => r.id == tx
  | none => false

/-- Modelled from the spec: `checkIfNewTransaction` of `utils/paypal.js`, absent
    from the sources; the transaction id is new when no stored order has it
    as `paymentResult.id`. -/
def checkIfNewTransaction (store : Store Money) (transactionId : String) : Bool :=
  !(store.any (hasTransaction transactionId))

end Primitives

/-! ## Handlers -/

section Handlers
variable {Money : Type}

/-- The conversion `Number(x)`: `undefined` gives `NaN`, `null` gives 0, a
    boolean gives 0 or 1, a number is returned as it is. -/
def Number : JsValue → JsNumber
  | .undefined => .nan
  | .null => .finite 0
  | .boolean false => .finite 0
  | .boolean true => .finite 1
  | .number x => x

/-- Whether a number is an integer greater than or equal to 1. -/
def JsNumber.isPositiveInteger : JsNumber → Bool
  | .nan => false
  | .finite q => q.den == 1 && decide (1 ≤ q.num)

/-- The callback of `orderItems.map` in `addOrderItems`, run left to right; the
    first item without a matching product throws. -/
def dbOrderItems (itemsFromDB : List (Product Money)) :
    List (ClientItem Money) → Except String (List (OrderItem Money))
  | [] => .ok []
  | itemFromClient :: rest =>
    match itemsFromDB.find? (fun itemFromDB => itemFromDB._id == itemFromClient._id) with
    | none => .error ("Product not found: " ++ itemFromClient._id)
    | some matchingItemFromDB =>
      match dbOrderItems itemsFromDB rest with
      | .error e => .error e
      | .ok items =>
        .ok ({ product := itemFromClient._id
               name := matchingItemFromDB.name
               image := matchingItemFromDB.image
               price := matchingItemFromDB.price
               qty := Number itemFromClient.qty } :: items)

/-- The handler of `POST /api/orders`. -/
def addOrderItems (calcPrices : List (OrderItem Money) → Prices Money)
    (products : List (Product Money)) (newId : Nat) (user : Nat)
    (body : CreateBody Money) (store : Store Money) :
    Store Money × Response Money :=
  match body.orderItems with
  | none => (store, .error 400 "No order items")
  | some [] => (store, .error 400 "No order items")
  | some (item :: items) =>
    let orderItems := item :: items
    let itemsFromDB := productFind products (orderItems.map (fun x => x._id))
    match dbOrderItems itemsFromDB orderItems with
    | .error message => (store, .error 200 message)
    | .ok dbItems =>
      let prices := calcPrices dbItems
      let order : Order Money :=
        { _id := newId
          user := user
          orderItems := dbItems
          shippingAddress := body.shippingAddress
          paymentMethod := body.paymentMethod
          itemsPrice := prices.itemsPrice
          taxPrice := prices.taxPrice
          shippingPrice := prices.shippingPrice
          totalPrice := prices.totalPrice
          isPaid := false
          paidAt := none
          isDelivered := false
          deliveredAt := none
          paymentResult := none }
      match saveNew store order with
      | none => (store, .error 200 "E11000 duplicate key error")
      | some store' => (store', .json 201 order)

/-- The handler of `GET /api/orders/myorders`. -/
def getMyOrders (user : Nat) (store : Store Money) : Store Money × Response Money :=
  (store, .jsonList 200 (store.filter (fun o => o.user == user)))

/-- The handler of `GET /api/orders/:id` (the `populate` projection of the
    owner is left out). -/
def getOrderById (id : Nat) (store : Store Money) : Store Money × Response Money :=
  match findById store id with
  | some order => (store, .json 200 order)
  | none => (store, .error 404 "Order not found")

/-- The handler of `PUT /api/orders/:id/pay`. -/
def updateOrderToPaid (toString : Money → String)
    (isNew : Store Money → String → Bool) (now : Nat) (id : Nat)
    (body : PayBody) (verification : Verification) (store : Store Money) :
    Store Money × Response Money :=
  match findById store id with
  | none => (store, .error 404 "Order not found")
  | some order =>
    if !verification.verified then (store, .error 400 "Payment not verified")
    else if !(isNew store body.id) then
      (store, .error 400 "Transaction has already been used")
    else if !(toString order.totalPrice == verification.value) then
      (store, .error 400 "Incorrect amount paid")
    else
      let updatedOrder : Order Money :=
        { order with
          isPaid := true
          paidAt := some now
          paymentResult := some
            { id := body.id
              status := body.status
              update_time := body.update_time
              email_address := body.payer.bind (fun p => p.email_address) } }
      (saveExisting store updatedOrder, .json 200 updatedOrder)

/-- The handler of `PUT /api/orders/:id/deliver`. -/
def updateOrderToDelivered (now : Nat) (id : Nat) (store : Store Money) :
    Store Money × Response Money :=
  match findById store id with
  | some order =>
    let updatedOrder : Order Money :=
      { order with isDelivered := true, deliveredAt := some now }
    (saveExisting store updatedOrder, .json 200 updatedOrder)
  | none => (store, .error 404 "Order not found")

/-- The handler of `GET /api/orders` (the `populate` projection is left out). -/
def getOrders (store : Store Money) : Store Money × Response Money :=
  (store, .jsonList 200 store)

end Handlers

/-- The document `updateOrderToPaid` saves when all its guards hold. -/
def paidOrder {Money : Type} (order : Order Money) (now : Nat) (body : PayBody) :
    Order Money :=
  { order with
    isPaid := true
    paidAt := some now
    paymentResult := some
      { id := body.id
        status := body.status
        update_time := body.update_time
        email_address := body.payer.bind (fun p => p.email_address) } }

/-- The document `updateOrderToDelivered` saves. -/
def deliveredOrder {Money : Type} (order : Order Money) (now : Nat) : Order Money :=
  { order with isDelivered := true, deliveredAt := some now }

/-! ## Sequences of requests -/

/-- One request to the controller, with what the outside world answers
    while it is served. -/
inductive Op (Money : Type) where
  | addOrderItems (products : List (Product Money)) (newId : Nat) (user : Nat)
      (body : CreateBody Money)
  | getMyOrders (user : Nat)
  | getOrderById (id : Nat)
  | updateOrderToPaid (now : Nat) (id : Nat) (body : PayBody)
      (verification : Verification)
  | updateOrderToDelivered (now : Nat) (id : Nat)
  | getOrders
deriving DecidableEq, Repr

section Runs
variable {Money : Type}

/-- Serve one request. -/
def step (calcPrices : List (OrderItem Money) → Prices Money)
    (toString : Money → String) (isNew : Store Money → String → Bool)
    (store : Store Money) : Op Money → Store Money × Response Money
  | .addOrderItems products newId user body =>
    addOrderItems calcPrices products newId user body store
  | .getMyOrders user => getMyOrders user store
  | .getOrderById id => getOrderById id store
  | .updateOrderToPaid now id body verification =>
    updateOrderToPaid toString isNew now id body verification store
  | .updateOrderToDelivered now id => updateOrderToDelivered now id store
  | .getOrders => getOrders store

/-- Serve requests one at a time; returns the final store and the responses
    in request order. -/
def run (calcPrices : List (OrderItem Money) → Prices Money)
    (toString : Money → String) (isNew : Store Money → String → Bool) :
    Store Money → List (Op Money) → Store Money × List (Response Money)
  | store, [] => (store, [])
  | store, op :: ops =>
    let r := step calcPrices toString isNew store op
    let rest := run calcPrices toString isNew r.1 ops
    (rest.1, r.2 :: rest.2)

end Runs

/-- Stored `_id`s are pairwise distinct and no transaction id is carried by
    two stored orders. -/
def LedgerInv {Money : Type} (store : Store Money) : Prop :=
  (store.map (fun o => o._id)).Nodup ∧
  ∀ tx, store.countP (hasTransaction tx) ≤ 1

/-! ## Concrete amounts used in the worked instances -/

/-- Modelled from the spec: the rendering of a stored amount as a fixed-point
    decimal string with two decimals (the schema of the order model is absent
    from the sources); amounts are held in hundredths. -/
def fixedString (cents : Int) : String :=
  let n := cents.natAbs
  (if cents < 0 then "-" else "") ++ Nat.repr (n / 100) ++ "." ++
    (if n % 100 < 10 then "0" else "") ++ Nat.repr (n % 100)

/-- The value of a string of decimal digits, most significant first. -/
def digitsValue : List Char → Option Nat
  | [] => none
  | cs => cs.foldl (fun acc c =>
      match acc with
      | none => none
      | some n => if c.isDigit then some (10 * n + (c.toNat - 48)) else none) (some 0)

/-- Reading of a decimal string `d..d.dd` as hundredths. -/
def readFixed (s : String) : Option Int :=
  match s.data.reverse with
  | c2 :: c1 :: dot :: whole =>
    if dot = '.' then
      match digitsValue whole.reverse, digitsValue [c1, c2] with
      | some w, some f => some (Int.ofNat (100 * w + f))
      | _, _ => none
    else none
  | _ => none

/-- The number of units of a quantity that is an integer; the spec defines
    the price calculator on integer quantities only, and any other quantity
    counts as zero units here. -/
def wholeUnits : JsNumber → Int
  | .nan => 0
  | .finite q => if q.den = 1 then q.num else 0

/-- Modelled from the spec: the price calculator `calcPrices` of
    `utils/calcPrices.js`, absent from the sources, at tax rate `taxPercent`
    percent (rounded half up), with shipping fee `fee` below `threshold`. -/
def calcPricesAt (taxPercent threshold fee : Int) (items : List (OrderItem Int)) :
    Prices Int :=
  let itemsPrice := (items.map (fun i => i.price * wholeUnits i.qty)).sum
  let taxPrice := Int.fdiv (itemsPrice * taxPercent + 50) 100
  let shippingPrice := if itemsPrice < threshold then fee else 0
  { itemsPrice := itemsPrice
    taxPrice := taxPrice
    shippingPrice := shippingPrice
    totalPrice := itemsPrice + taxPrice + shippingPrice }

/-- A one-product catalogue: `P1` at 10.00. -/
def sampleProducts : List (Product Int) :=
  [{ _id := "P1", name := "Phone", image := "/p1.jpg", price := 1000 }]

/-- An unpaid order of total 20.00. -/
def sampleOrder : Order Int :=
  { _id := 1, user := 7, orderItems := [], shippingAddress := "a", paymentMethod := "PayPal"
    itemsPrice := 2000, taxPrice := 0, shippingPrice := 0, totalPrice := 2000
    isPaid := false, paidAt := none, isDelivered := false, deliveredAt := none
    paymentResult := none }

/-- A payment body carrying transaction id `TX1`. -/
def samplePay : PayBody :=
  { id := "TX1", status := "COMPLETED", update_time := "t", payer := some ⟨some "a@b.c"⟩ }

/-- A second payment body, carrying transaction id `TX2`. -/
def samplePay2 : PayBody :=
  { id := "TX2", status := "COMPLETED", update_time := "u", payer := none }

/-- A cart of `P1` followed by the unknown references `P9` and `P8`. -/
def unknownCart : List (ClientItem Int) :=
  [⟨"P1", "", "", 0, .number (.finite 1)⟩, ⟨"P9", "", "", 0, .number (.finite 1)⟩,
    ⟨"P8", "", "", 0, .number (.finite 1)⟩]

/-- A cart of two units of `P1`, with a client-side price that is not the
    catalogue price. -/
def sampleCart : CreateBody Int :=
  { orderItems := some [{ _id := "P1", name := "x", image := "y", price := 1, qty := .number (.finite 2) }]
    shippingAddress := "a", paymentMethod := "PayPal" }

/-- Two orders of total 33.00 are created; order 1 is paid with `TX1`, paid
    again with `TX2`, and then order 2 is paid with `TX1`. -/
def replayOps : List (Op Int) :=
  [ .addOrderItems sampleProducts 1 7 sampleCart,
    .addOrderItems sampleProducts 2 7 sampleCart,
    .updateOrderToPaid 10 1 samplePay ⟨true, "33.00"⟩,
    .updateOrderToPaid 20 1 samplePay2 ⟨true, "33.00"⟩,
    .updateOrderToPaid 30 2 samplePay ⟨true, "33.00"⟩ ]

/-- An order is created with total 33.00, paid with `TX1` at time 10, and paid
    again with `TX2` at time 20. -/
def repayOps : List (Op Int) :=
  [ .addOrderItems sampleProducts 1 7 sampleCart,
    .updateOrderToPaid 10 1 samplePay ⟨true, "33.00"⟩,
    .updateOrderToPaid 20 1 samplePay2 ⟨true, "33.00"⟩ ]

/-- The `_id`, `isPaid`, `paidAt` and `paymentResult.id` of a stored order. -/
def paymentState (o : Order Int) : Nat × Bool × Option Nat × Option String :=
  (o._id, o.isPaid, o.paidAt, o.paymentResult.map (fun r => r.id))

/-- The status, order id and transaction id of a response that carries an
    order. -/
def settled : Response Int → Option (Nat × Nat × Option String)
  | .json status o => some (status, o._id, o.paymentResult.map (fun r => r.id))
  | _ => none

/-- The same cart as `sampleCart` with other client-side name, image and
    price. -/
def tamperedCart : CreateBody Int :=
  { orderItems := some [{ _id := "P1", name := "z", image := "w", price := 0, qty := .number (.finite 2) }]
    shippingAddress := "a", paymentMethod := "PayPal" }

/-- The order created from `sampleCart` under id 1 for user 7. -/
def sampleCreated : Order Int :=
  { _id := 1, user := 7
    orderItems := [{ product := "P1", name := "Phone", image := "/p1.jpg", price := 1000, qty := .finite 2 }]
    shippingAddress := "a", paymentMethod := "PayPal"
    itemsPrice := 2000, taxPrice := 300, shippingPrice := 1000, totalPrice := 3300
    isPaid := false, paidAt := none, isDelivered := false, deliveredAt := none
    paymentResult := none }

/-- A cart asking for -1 unit of `P1` and then for `null` units of `P1`. -/
def negativeCart : List (ClientItem Int) :=
  [⟨"P1", "x", "y", 1, .number (.finite (-1))⟩, ⟨"P1", "x", "y", 1, .null⟩]

/-- A cart asking for zero units of `P1`. -/
def zeroCart : CreateBody Int :=
  { orderItems := some [{ _id := "P1", name := "x", image := "y", price := 1, qty := .number (.finite 0) }]
    shippingAddress := "a", paymentMethod := "PayPal" }

/-! ## Lemmas on the collection primitives -/

section Lemmas
variable {Money : Type}

theorem findById_id {store : Store Money} {id : Nat} {o : Order Money}
    (h : findById store id = some o) : o._id = id := by
  unfold findById at h
  have := List.find?_some h
  simpa using this

theorem findById_mem {store : Store Money} {id : Nat} {o : Order Money}
    (h : findById store id = some o) : o ∈ store := by
  unfold findById at h
  exact List.mem_of_find?_eq_some h

theorem saveExisting_length (store : Store Money) (o : Order Money) :
    (saveExisting store o).length = store.length := by
  simp [saveExisting]

theorem saveExisting_getElem? (store : Store Money) (o : Order Money) (i : Nat) :
    (saveExisting store o)[i]? =
      (store[i]?).map (fun x => if x._id = o._id then o else x) := by
  simp [saveExisting]

theorem saveExisting_id (o x : Order Money) :
    (if x._id = o._id then o else x)._id = x._id := by
  by_cases h : x._id = o._id
  · simp [h]
  · simp [h]

theorem findById_saveExisting (store : Store Money) (o : Order Money) (id : Nat) :
    findById (saveExisting store o) id =
      (findById store id).map (fun x => if x._id = o._id then o else x) := by
  have hp : ((fun x : Order Money => x._id == id) ∘
      fun x => if x._id = o._id then o else x) = fun x => x._id == id := by
    funext x
    simp only [Function.comp, saveExisting_id]
  simp only [findById, saveExisting, List.find?_map, hp]

end Lemmas

/-! ## Payment confirmation -/

section Payment
variable {Money : Type}

/-- C1: `updateOrderToPaid` checks its four guards in the order existence,
    verification, ledger, amount; the first guard that fails fixes the answer
    (404 "Order not found", then 400 "Payment not verified", 400 "Transaction
    has already been used", 400 "Incorrect amount paid") and the collection is
    returned as it was; an order is sent back only when all four guards hold. -/
theorem updateOrderToPaid_guards (toString : Money → String)
    (isNew : Store Money → String → Bool) (now id : Nat) (body : PayBody)
    (v : Verification) (store : Store Money) :
    (findById store id = none →
      updateOrderToPaid toString isNew now id body v store
        = (store, .error 404 "Order not found")) ∧
    (∀ o, findById store id = some o → v.verified = false →
      updateOrderToPaid toString isNew now id body v store
        = (store, .error 400 "Payment not verified")) ∧
    (∀ o, findById store id = some o → v.verified = true →
      isNew store body.id = false →
      updateOrderToPaid toString isNew now id body v store
        = (store, .error 400 "Transaction has already been used")) ∧
    (∀ o, findById store id = some o → v.verified = true →
      isNew store body.id = true → toString o.totalPrice ≠ v.value →
      updateOrderToPaid toString isNew now id body v store
        = (store, .error 400 "Incorrect amount paid")) ∧
    (∀ status o', (updateOrderToPaid toString isNew now id body v store).2
        = .json status o' →
      ∃ o, findById store id = some o ∧ v.verified = true ∧
        isNew store body.id = true ∧ toString o.totalPrice = v.value) := by
  refine ⟨?_, ?_, ?_, ?_, ?_⟩
  · intro h
    simp [updateOrderToPaid, h]
  · intro o h hv
    simp [updateOrderToPaid, h, hv]
  · intro o h hv hn
    simp [updateOrderToPaid, h, hv, hn]
  · intro o h hv hn ha
    simp [updateOrderToPaid, h, hv, hn, ha]
  · intro status o' hres
    unfold updateOrderToPaid at hres
    cases hf : findById store id with
    | none => simp [hf] at hres
    | some o =>
      refine ⟨o, rfl, ?_⟩
      simp only [hf] at hres
      cases hv : v.verified with
      | false => simp [hv] at hres
      | true =>
        cases hn : isNew store body.id with
        | false => simp [hv, hn] at hres
        | true =>
          by_cases ha : toString o.totalPrice = v.value
          · exact ⟨rfl, rfl, ha⟩
          · simp [hv, hn, ha] at hres

/-- Worked instance of C1: a missing order, an unconfirmed transaction, a used
    transaction id and a wrong amount, each on the one-order collection. -/
theorem updateOrderToPaid_guards_witness :
    updateOrderToPaid fixedString checkIfNewTransaction 5 2 samplePay ⟨true, "20.00"⟩
        [sampleOrder] = ([sampleOrder], .error 404 "Order not found") ∧
    updateOrderToPaid fixedString checkIfNewTransaction 5 1 samplePay ⟨false, "20.00"⟩
        [sampleOrder] = ([sampleOrder], .error 400 "Payment not verified") ∧
    updateOrderToPaid fixedString (fun _ _ => false) 5 1 samplePay ⟨true, "20.00"⟩
        [sampleOrder] = ([sampleOrder], .error 400 "Transaction has already been used") ∧
    updateOrderToPaid fixedString checkIfNewTransaction 5 1 samplePay ⟨true, "20.0"⟩
        [sampleOrder] = ([sampleOrder], .error 400 "Incorrect amount paid") :=
  ⟨(updateOrderToPaid_guards fixedString checkIfNewTransaction 5 2 samplePay
      ⟨true, "20.00"⟩ [sampleOrder]).1 (by decide),
   (updateOrderToPaid_guards fixedString checkIfNewTransaction 5 1 samplePay
      ⟨false, "20.00"⟩ [sampleOrder]).2.1 sampleOrder (by decide) (by decide),
   (updateOrderToPaid_guards fixedString (fun _ _ => false) 5 1 samplePay
      ⟨true, "20.00"⟩ [sampleOrder]).2.2.1 sampleOrder (by decide) (by decide) (by decide),
   (updateOrderToPaid_guards fixedString checkIfNewTransaction 5 1 samplePay
      ⟨true, "20.0"⟩ [sampleOrder]).2.2.2.1 sampleOrder (by decide) (by decide)
      (by decide) (by decide)⟩

/-- C2: on an existing order, with a confirmed transaction id that the ledger
    reports as new, a verified amount whose value `amount v.value` is not the
    stored `totalPrice` (where `amount` reads back the rendering of that
    `totalPrice`) is refused with 400 "Incorrect amount paid"; the collection is
    unchanged, so the order keeps its `isPaid`, `paidAt` and `paymentResult`. -/
theorem updateOrderToPaid_amount_mismatch (toString : Money → String)
    (amount : String → Option Money)
    (isNew : Store Money → String → Bool) (now id : Nat) (body : PayBody)
    (v : Verification) (store : Store Money) (o : Order Money)
    (hfind : findById store id = some o) (hv : v.verified = true)
    (hnew : isNew store body.id = true)
    (hread : amount (toString o.totalPrice) = some o.totalPrice)
    (hdiff : amount v.value ≠ some o.totalPrice) :
    updateOrderToPaid toString isNew now id body v store
      = (store, .error 400 "Incorrect amount paid") ∧
    findById (updateOrderToPaid toString isNew now id body v store).1 id = some o ∧
    (o.isPaid = false →
      ∀ o', findById (updateOrderToPaid toString isNew now id body v store).1 id
        = some o' → o'.isPaid = false) := by
  have hne : toString o.totalPrice ≠ v.value := by
    intro h
    rw [h] at hread
    exact hdiff hread
  have hres : updateOrderToPaid toString isNew now id body v store
      = (store, .error 400 "Incorrect amount paid") := by
    simp [updateOrderToPaid, hfind, hv, hnew, hne]
  rw [hres]
  refine ⟨rfl, hfind, ?_⟩
  intro hp o' ho'
  have : o' = o := by
    have h2 : some o' = some o := ho'.symm.trans hfind
    exact Option.some.inj h2
  rw [this]; exact hp

/-- Worked instance of C2: verified "19.99" against a stored total of 20.00. -/
theorem updateOrderToPaid_amount_mismatch_witness :
    updateOrderToPaid fixedString checkIfNewTransaction 5 1 samplePay ⟨true, "19.99"⟩
        [sampleOrder] = ([sampleOrder], .error 400 "Incorrect amount paid") ∧
    findById (updateOrderToPaid fixedString checkIfNewTransaction 5 1 samplePay
        ⟨true, "19.99"⟩ [sampleOrder]).1 1 = some sampleOrder ∧
    (sampleOrder.isPaid = false →
      ∀ o', findById (updateOrderToPaid fixedString checkIfNewTransaction 5 1 samplePay
        ⟨true, "19.99"⟩ [sampleOrder]).1 1 = some o' → o'.isPaid = false) :=
  updateOrderToPaid_amount_mismatch fixedString readFixed checkIfNewTransaction 5 1
    samplePay ⟨true, "19.99"⟩ [sampleOrder] sampleOrder (by decide) (by decide)
    (by decide) (by decide) (by decide)

/-- C5: when all four guards hold, `updateOrderToPaid` answers with, and stores
    under the order's id, the order with `isPaid = true`, `paidAt = now` and
    `paymentResult` built from the body's `id`, `status`, `update_time` and
    `payer.email_address` (missing when there is no payer); its other fields are
    those of the order before, and every stored order with another `_id`
    stays in place unchanged. -/
theorem updateOrderToPaid_success (toString : Money → String)
    (isNew : Store Money → String → Bool) (now id : Nat) (body : PayBody)
    (v : Verification) (store : Store Money) (o : Order Money)
    (hfind : findById store id = some o) (hv : v.verified = true)
    (hnew : isNew store body.id = true) (hamt : toString o.totalPrice = v.value) :
    ∃ o' store', updateOrderToPaid toString isNew now id body v store
        = (store', .json 200 o') ∧
      findById store' id = some o' ∧
      o'.isPaid = true ∧ o'.paidAt = some now ∧
      o'.paymentResult = some
        { id := body.id, status := body.status, update_time := body.update_time
          email_address :=
            match body.payer with
            | some payer => payer.email_address
            | none => none } ∧
      o'._id = o._id ∧ o'.user = o.user ∧ o'.orderItems = o.orderItems ∧
      o'.shippingAddress = o.shippingAddress ∧ o'.paymentMethod = o.paymentMethod ∧
      o'.itemsPrice = o.itemsPrice ∧ o'.taxPrice = o.taxPrice ∧
      o'.shippingPrice = o.shippingPrice ∧ o'.totalPrice = o.totalPrice ∧
      o'.isDelivered = o.isDelivered ∧ o'.deliveredAt = o.deliveredAt ∧
      store'.length = store.length ∧
      (∀ (i : Nat) (x : Order Money), store[i]? = some x → x._id ≠ id → store'[i]? = some x) := by
  have hid : o._id = id := findById_id hfind
  refine ⟨paidOrder o now body, saveExisting store (paidOrder o now body), ?_, ?_, rfl,
    rfl, ?_, rfl, rfl, rfl, rfl, rfl, rfl, rfl, rfl, rfl, rfl, rfl, ?_, ?_⟩
  · simp [updateOrderToPaid, hfind, hv, hnew, hamt, paidOrder]
  · rw [findById_saveExisting, hfind]
    simp [paidOrder]
  · cases hp : body.payer <;> simp [paidOrder, hp]
  · exact saveExisting_length _ _
  · intro i x hx hne
    rw [saveExisting_getElem?, hx]
    have : ¬ x._id = (paidOrder o now body)._id := by
      show ¬ x._id = o._id
      rw [hid]; exact hne
    simp [this]

/-- Worked instance of C5: the sample order paid with `TX1` at time 5, next to
    an order with another id. -/
theorem updateOrderToPaid_success_witness :
    ∃ o' store', updateOrderToPaid fixedString checkIfNewTransaction 5 1 samplePay
        ⟨true, "20.00"⟩ [sampleOrder, { sampleOrder with _id := 2 }]
        = (store', .json 200 o') ∧
      findById store' 1 = some o' ∧
      o'.isPaid = true ∧ o'.paidAt = some 5 ∧
      o'.paymentResult = some
        { id := samplePay.id, status := samplePay.status
          update_time := samplePay.update_time
          email_address :=
            match samplePay.payer with
            | some payer => payer.email_address
            | none => none } ∧
      o'._id = sampleOrder._id ∧ o'.user = sampleOrder.user ∧
      o'.orderItems = sampleOrder.orderItems ∧
      o'.shippingAddress = sampleOrder.shippingAddress ∧
      o'.paymentMethod = sampleOrder.paymentMethod ∧
      o'.itemsPrice = sampleOrder.itemsPrice ∧ o'.taxPrice = sampleOrder.taxPrice ∧
      o'.shippingPrice = sampleOrder.shippingPrice ∧
      o'.totalPrice = sampleOrder.totalPrice ∧
      o'.isDelivered = sampleOrder.isDelivered ∧
      o'.deliveredAt = sampleOrder.deliveredAt ∧
      store'.length = [sampleOrder, { sampleOrder with _id := 2 }].length ∧
      (∀ (i : Nat) (x : Order Int),
        [sampleOrder, { sampleOrder with _id := 2 }][i]? = some x → x._id ≠ 1 →
        store'[i]? = some x) :=
  updateOrderToPaid_success fixedString checkIfNewTransaction 5 1 samplePay
    ⟨true, "20.00"⟩ [sampleOrder, { sampleOrder with _id := 2 }] sampleOrder
    (by decide) (by decide) (by decide) (by decide)

end Payment

/-! ## What one request does to the collection -/

section Steps
variable {Money : Type}

/-- The collection after `addOrderItems` is the collection before, or the
    collection before with one unpaid, undelivered order of a fresh `_id`
    appended. -/
theorem addOrderItems_store (calcPrices : List (OrderItem Money) → Prices Money)
    (products : List (Product Money)) (newId user : Nat) (body : CreateBody Money)
    (store : Store Money) :
    (addOrderItems calcPrices products newId user body store).1 = store ∨
    ∃ o, (addOrderItems calcPrices products newId user body store)
        = (store ++ [o], .json 201 o) ∧
      o._id = newId ∧ o.paymentResult = none ∧
      store.any (fun x => x._id == newId) = false := by
  unfold addOrderItems
  cases hb : body.orderItems with
  | none => exact Or.inl rfl
  | some cart =>
    cases cart with
    | nil => exact Or.inl rfl
    | cons item items =>
      simp only []
      cases hd : dbOrderItems (productFind products
          (List.map (fun x => x._id) (item :: items))) (item :: items) with
      | error e => exact Or.inl rfl
      | ok dbItems =>
        simp only [saveNew]
        cases hany : store.any (fun x => x._id == newId) with
        | true => left; simp [hany]
        | false => right; simp [hany]

/-- The collection after `updateOrderToPaid` is the collection before, or all
    guards held and the paid order was saved. -/
theorem updateOrderToPaid_store (toString : Money → String)
    (isNew : Store Money → String → Bool) (now id : Nat) (body : PayBody)
    (v : Verification) (store : Store Money) :
    (∃ message status, updateOrderToPaid toString isNew now id body v store
        = (store, .error status message)) ∨
    ∃ o, findById store id = some o ∧ v.verified = true ∧
      isNew store body.id = true ∧ toString o.totalPrice = v.value ∧
      updateOrderToPaid toString isNew now id body v store
        = (saveExisting store (paidOrder o now body), .json 200 (paidOrder o now body)) := by
  unfold updateOrderToPaid
  cases hf : findById store id with
  | none => exact Or.inl ⟨_, _, rfl⟩
  | some o =>
    cases hv : v.verified with
    | false => left; exact ⟨"Payment not verified", 400, by simp⟩
    | true =>
      cases hn : isNew store body.id with
      | false => left; exact ⟨"Transaction has already been used", 400, by simp⟩
      | true =>
        by_cases ha : toString o.totalPrice = v.value
        · right; exact ⟨o, rfl, rfl, rfl, ha, by simp [ha, paidOrder]⟩
        · left; exact ⟨"Incorrect amount paid", 400, by simp [ha]⟩

/-- The collection after `updateOrderToDelivered` is the collection before, or
    the delivered order was saved. -/
theorem updateOrderToDelivered_store (now id : Nat) (store : Store Money) :
    updateOrderToDelivered now id store = (store, .error 404 "Order not found") ∨
    ∃ o, findById store id = some o ∧
      updateOrderToDelivered now id store
        = (saveExisting store (deliveredOrder o now), .json 200 (deliveredOrder o now)) := by
  unfold updateOrderToDelivered
  cases hf : findById store id with
  | none => exact Or.inl rfl
  | some o => exact Or.inr ⟨o, rfl, rfl⟩

end Steps

section StepById
variable {Money : Type}

/-- An order found under `id` before a request is found under `id` after it:
    unchanged, or as the paid order when the request is a payment of `id`
    that passed all guards, or as the delivered order when the request is a
    delivery of `id`. -/
theorem step_findById (calcPrices : List (OrderItem Money) → Prices Money)
    (toString : Money → String) (isNew : Store Money → String → Bool)
    (store : Store Money) (op : Op Money) (id : Nat) (o : Order Money)
    (h : findById store id = some o) :
    findById (step calcPrices toString isNew store op).1 id = some o ∨
    (∃ now body v, op = .updateOrderToPaid now id body v ∧ v.verified = true ∧
      isNew store body.id = true ∧ toString o.totalPrice = v.value ∧
      findById (step calcPrices toString isNew store op).1 id
        = some (paidOrder o now body)) ∨
    (∃ now, op = .updateOrderToDelivered now id ∧
      findById (step calcPrices toString isNew store op).1 id
        = some (deliveredOrder o now)) := by
  have hoid : o._id = id := findById_id h
  cases op with
  | addOrderItems products newId user body =>
    left
    rcases addOrderItems_store calcPrices products newId user body store with hs | ⟨n, hs, -⟩
    · simp only [step, hs, h]
    · simp only [step, hs]
      unfold findById at h ⊢
      simp [List.find?_append, h]
  | getMyOrders user => exact Or.inl h
  | getOrderById id2 =>
    left
    simp only [step, getOrderById]
    cases findById store id2 <;> exact h
  | getOrders => exact Or.inl h
  | updateOrderToPaid now id2 body v =>
    rcases updateOrderToPaid_store toString isNew now id2 body v store with
      ⟨m, st, hs⟩ | ⟨x, hx, hv, hn, ha, hs⟩
    · left; simp only [step, hs, h]
    · have hxid : x._id = id2 := findById_id hx
      by_cases hid : id = id2
      · subst hid
        have hxo : x = o := Option.some.inj (hx.symm.trans h)
        subst hxo
        right; left
        refine ⟨now, body, v, rfl, hv, hn, ha, ?_⟩
        simp only [step, hs, findById_saveExisting, h, Option.map_some']
        simp [paidOrder]
      · left
        simp only [step, hs, findById_saveExisting, h, Option.map_some']
        have : ¬ o._id = (paidOrder x now body)._id := by
          show ¬ o._id = x._id
          rw [hoid, hxid]; exact hid
        simp [this]
  | updateOrderToDelivered now id2 =>
    rcases updateOrderToDelivered_store now id2 store with hs | ⟨x, hx, hs⟩
    · left; simp only [step, hs, h]
    · have hxid : x._id = id2 := findById_id hx
      by_cases hid : id = id2
      · subst hid
        have hxo : x = o := Option.some.inj (hx.symm.trans h)
        subst hxo
        right; right
        refine ⟨now, rfl, ?_⟩
        simp only [step, hs, findById_saveExisting, h, Option.map_some']
        simp [deliveredOrder]
      · left
        simp only [step, hs, findById_saveExisting, h, Option.map_some']
        have : ¬ o._id = (deliveredOrder x now)._id := by
          show ¬ o._id = x._id
          rw [hoid, hxid]; exact hid
        simp [this]

end StepById

/-! ## Lifecycle flags -/

section Flags
variable {Money : Type}

/-- C7: whatever the request (`addOrderItems`, `getMyOrders`, `getOrderById`,
    `updateOrderToPaid`, `updateOrderToDelivered`, `getOrders`) and whatever its
    outcome, an order stored under `id` is still stored under `id` afterwards,
    and if its `isPaid` (its `isDelivered`) was true it is true afterwards. -/
theorem flags_monotonic (calcPrices : List (OrderItem Money) → Prices Money)
    (toString : Money → String) (isNew : Store Money → String → Bool)
    (store : Store Money) (op : Op Money) (id : Nat) (o : Order Money)
    (h : findById store id = some o) :
    ∃ o', findById (step calcPrices toString isNew store op).1 id = some o' ∧
      (o.isPaid = true → o'.isPaid = true) ∧
      (o.isDelivered = true → o'.isDelivered = true) := by
  rcases step_findById calcPrices toString isNew store op id o h with
    hs | ⟨now, body, v, -, -, -, -, hs⟩ | ⟨now, -, hs⟩
  · exact ⟨o, hs, fun hp => hp, fun hd => hd⟩
  · exact ⟨_, hs, fun _ => rfl, fun hd => hd⟩
  · exact ⟨_, hs, fun hp => hp, fun _ => rfl⟩

/-- Worked instance of C7: delivering a paid order keeps it paid. -/
theorem flags_monotonic_witness :
    findById [paidOrder sampleOrder 5 samplePay] 1 = some (paidOrder sampleOrder 5 samplePay) ∧
    ∃ o', findById (step (calcPricesAt 15 10000 1000) fixedString checkIfNewTransaction
        [paidOrder sampleOrder 5 samplePay] (.updateOrderToDelivered 9 1)).1 1 = some o' ∧
      ((paidOrder sampleOrder 5 samplePay).isPaid = true → o'.isPaid = true) ∧
      ((paidOrder sampleOrder 5 samplePay).isDelivered = true → o'.isDelivered = true) :=
  ⟨by decide,
   flags_monotonic (calcPricesAt 15 10000 1000) fixedString checkIfNewTransaction
    [paidOrder sampleOrder 5 samplePay] (.updateOrderToDelivered 9 1) 1
    (paidOrder sampleOrder 5 samplePay) (by decide)⟩

/-- C6 fails on the code: in `repayOps` order 1 is paid at time 10 with `TX1`
    and the payment at time 20 with `TX2` is accepted as well; `paidAt` goes
    from 10 to 20 and `paymentResult.id` from `TX1` to `TX2` on an order that
    was already paid, because `updateOrderToPaid` never reads `isPaid`. -/
theorem second_payment_overwrites_first :
    (run (calcPricesAt 15 10000 1000) fixedString checkIfNewTransaction []
      (repayOps.take 2)).1.map paymentState = [(1, true, some 10, some "TX1")] ∧
    (run (calcPricesAt 15 10000 1000) fixedString checkIfNewTransaction []
      repayOps).1.map paymentState = [(1, true, some 20, some "TX2")] ∧
    (run (calcPricesAt 15 10000 1000) fixedString checkIfNewTransaction []
      repayOps).2.map settled
      = [some (201, 1, none), some (200, 1, some "TX1"), some (200, 1, some "TX2")] :=
  ⟨by decide, by decide, by decide⟩

end Flags

/-! ## The ledger invariant -/

section Ledger
variable {Money : Type}

theorem countP_id_le_one {store : Store Money}
    (h : (store.map (fun o => o._id)).Nodup) (t : Nat) :
    store.countP (fun x => x._id == t) ≤ 1 := by
  have h1 := List.nodup_iff_count_le_one.mp h t
  rw [List.count_eq_countP, List.countP_map] at h1
  exact h1

theorem saveExisting_ids (store : Store Money) (o : Order Money) :
    (saveExisting store o).map (fun x => x._id) = store.map (fun x => x._id) := by
  simp only [saveExisting, List.map_map]
  apply List.map_congr_left
  intro x _
  exact saveExisting_id o x

theorem eq_of_id_eq {store : Store Money}
    (h : (store.map (fun o => o._id)).Nodup) {x y : Order Money}
    (hx : x ∈ store) (hy : y ∈ store) (hxy : x._id = y._id) : x = y :=
  List.inj_on_of_nodup_map h hx hy hxy

theorem ledgerInv_nil : LedgerInv ([] : Store Money) := by
  constructor
  · simp
  · intro tx; simp

theorem ledgerInv_append {store : Store Money} (h : LedgerInv store) (o : Order Money)
    (hpay : o.paymentResult = none)
    (hfresh : store.any (fun x => x._id == o._id) = false) :
    LedgerInv (store ++ [o]) := by
  obtain ⟨hid, htx⟩ := h
  constructor
  · rw [List.map_append, List.nodup_append]
    refine ⟨hid, by simp, ?_⟩
    intro a ha hb
    simp only [List.map_cons, List.map_nil, List.mem_singleton] at hb
    rw [List.mem_map] at ha
    obtain ⟨x, hx, hxa⟩ := ha
    rw [List.any_eq_false] at hfresh
    have := hfresh x hx
    simp only [beq_iff_eq] at this
    exact this (hxa.trans hb)
  · intro tx
    rw [List.countP_append]
    have : List.countP (hasTransaction tx) [o] = 0 := by
      simp [List.countP_cons, hasTransaction, hpay]
    rw [this]
    exact htx tx

theorem ledgerInv_delivered {store : Store Money} (h : LedgerInv store)
    {o : Order Money} (ho : o ∈ store) (now : Nat) :
    LedgerInv (saveExisting store (deliveredOrder o now)) := by
  obtain ⟨hid, htx⟩ := h
  constructor
  · rw [saveExisting_ids]; exact hid
  · intro tx
    refine le_trans ?_ (htx tx)
    simp only [saveExisting, List.countP_map]
    apply List.countP_mono_left
    intro x hx hp
    simp only [Function.comp] at hp
    by_cases hxo : x._id = (deliveredOrder o now)._id
    · have hxeq : x = o := eq_of_id_eq hid hx ho hxo
      rw [if_pos hxo] at hp
      rw [hxeq]
      exact hp
    · rw [if_neg hxo] at hp
      exact hp

theorem ledgerInv_paid {store : Store Money} (h : LedgerInv store)
    {o : Order Money} (now : Nat) (body : PayBody)
    (hnew : checkIfNewTransaction store body.id = true) :
    LedgerInv (saveExisting store (paidOrder o now body)) := by
  obtain ⟨hid, htx⟩ := h
  have hnone : ∀ x ∈ store, hasTransaction body.id x = false := by
    simp only [checkIfNewTransaction, Bool.not_eq_true', List.any_eq_false] at hnew
    intro x hx
    simpa using hnew x hx
  constructor
  · rw [saveExisting_ids]; exact hid
  · intro tx
    simp only [saveExisting, List.countP_map]
    by_cases htxeq : tx = body.id
    · refine le_trans ?_ (countP_id_le_one hid o._id)
      apply List.countP_mono_left
      intro x hx hp
      simp only [Function.comp] at hp
      by_cases hxo : x._id = (paidOrder o now body)._id
      · simpa using hxo
      · rw [if_neg hxo, htxeq, hnone x hx] at hp
        exact absurd hp (by simp)
    · refine le_trans ?_ (htx tx)
      apply List.countP_mono_left
      intro x hx hp
      simp only [Function.comp] at hp
      by_cases hxo : x._id = (paidOrder o now body)._id
      · rw [if_pos hxo] at hp
        simp only [hasTransaction, paidOrder, beq_iff_eq] at hp
        exact absurd hp.symm htxeq
      · rw [if_neg hxo] at hp
        exact hp

/-- Every request preserves the ledger invariant. -/
theorem ledgerInv_step (calcPrices : List (OrderItem Money) → Prices Money)
    (toString : Money → String) (store : Store Money) (op : Op Money)
    (h : LedgerInv store) :
    LedgerInv (step calcPrices toString checkIfNewTransaction store op).1 := by
  cases op with
  | addOrderItems products newId user body =>
    rcases addOrderItems_store calcPrices products newId user body store with
      hs | ⟨n, hs, hn, hp, hf⟩
    · simp only [step, hs]; exact h
    · simp only [step, hs]
      exact ledgerInv_append h n hp (by rw [hn]; exact hf)
  | getMyOrders user => exact h
  | getOrderById id2 =>
    simp only [step, getOrderById]
    cases findById store id2 <;> exact h
  | getOrders => exact h
  | updateOrderToPaid now id2 body v =>
    rcases updateOrderToPaid_store toString checkIfNewTransaction now id2 body v store
      with ⟨m, st, hs⟩ | ⟨x, hx, hv, hn, ha, hs⟩
    · simp only [step, hs]; exact h
    · simp only [step, hs]
      exact ledgerInv_paid h now body hn
  | updateOrderToDelivered now id2 =>
    rcases updateOrderToDelivered_store now id2 store with hs | ⟨x, hx, hs⟩
    · simp only [step, hs]; exact h
    · simp only [step, hs]
      exact ledgerInv_delivered h (findById_mem hx) now

/-- Every sequence of requests preserves the ledger invariant. -/
theorem ledgerInv_run (calcPrices : List (OrderItem Money) → Prices Money)
    (toString : Money → String) (ops : List (Op Money)) :
    ∀ store : Store Money, LedgerInv store →
      LedgerInv (run calcPrices toString checkIfNewTransaction store ops).1 := by
  induction ops with
  | nil => intro store h; exact h
  | cons op ops ih =>
    intro store h
    simp only [run]
    exact ih _ (ledgerInv_step calcPrices toString store op h)

/-- C3: with the ledger check "no stored order has this `paymentResult.id`",
    a confirmed payment of an existing order whose transaction id is already
    carried by some stored order is refused with 400 "Transaction has already
    been used" and the collection stays as it was; and in every collection
    reached from the empty one by a sequence of requests, each transaction
    id is carried by at most one stored order. -/
theorem transaction_id_carried_once
    (calcPrices : List (OrderItem Money) → Prices Money)
    (toString : Money → String) (now id : Nat) (body : PayBody) (v : Verification)
    (store : Store Money) (ops : List (Op Money))
    (hexists : (findById store id).isSome = true) (hv : v.verified = true)
    (hused : ∃ settled ∈ store, hasTransaction body.id settled = true) :
    updateOrderToPaid toString checkIfNewTransaction now id body v store
      = (store, .error 400 "Transaction has already been used") ∧
    ∀ tx, (run calcPrices toString checkIfNewTransaction [] ops).1.countP
      (hasTransaction tx) ≤ 1 := by
  constructor
  · obtain ⟨o, ho⟩ := Option.isSome_iff_exists.mp hexists
    obtain ⟨settled, hmem, hs⟩ := hused
    have hnew : checkIfNewTransaction store body.id = false := by
      simp only [checkIfNewTransaction, Bool.not_eq_false', List.any_eq_true]
      exact ⟨settled, hmem, hs⟩
    simp [updateOrderToPaid, ho, hv, hnew]
  · exact (ledgerInv_run calcPrices toString ops [] ledgerInv_nil).2

end Ledger

/-! ## Order creation -/

section Creation
variable {Money : Type}

theorem productFind_find (products : List (Product Money)) (ids : List String)
    (ref : String) (h : ids.contains ref = true) :
    (productFind products ids).find? (fun p => p._id == ref)
      = products.find? (fun p => p._id == ref) := by
  simp only [productFind, List.find?_filter]
  congr 1
  funext a
  by_cases ha : a._id = ref
  · subst ha
    have hm : a._id ∈ ids := by simpa using h
    simp [hm]
  · have : (a._id == ref) = false := by simpa using ha
    simp [this]

theorem dbOrderItems_error_first (db : List (Product Money)) :
    ∀ (cart : List (ClientItem Money)) (c : ClientItem Money),
      cart.find? (fun c => !(db.any (fun p => p._id == c._id))) = some c →
      dbOrderItems db cart = .error ("Product not found: " ++ c._id) := by
  intro cart
  induction cart with
  | nil => intro c h; simp at h
  | cons x rest ih =>
    intro c h
    rw [List.find?_cons] at h
    cases hx : db.find? (fun p => p._id == x._id) with
    | none =>
      have hany : db.any (fun p => p._id == x._id) = false := by
        rw [List.any_eq_false]
        rw [List.find?_eq_none] at hx
        exact hx
      simp only [hany, Bool.not_false, Option.some.injEq] at h
      subst h
      simp only [dbOrderItems, hx]
    | some p =>
      have hany : db.any (fun p => p._id == x._id) = true := by
        rw [List.any_eq_true]
        have hp := List.find?_some hx
        exact ⟨p, List.mem_of_find?_eq_some hx, hp⟩
      simp only [hany, Bool.not_true] at h
      simp only [dbOrderItems, hx, ih c h]

theorem dbOrderItems_ok (products : List (Product Money)) (ids : List String) :
    ∀ (cart : List (ClientItem Money)) (items : List (OrderItem Money)),
      (∀ c ∈ cart, ids.contains c._id = true) →
      dbOrderItems (productFind products ids) cart = .ok items →
      List.Forall₂ (fun c it =>
        it.product = c._id ∧ it.qty = Number c.qty ∧
        ∃ p, products.find? (fun q => q._id == c._id) = some p ∧ p._id = c._id ∧
          it.name = p.name ∧ it.image = p.image ∧ it.price = p.price) cart items := by
  intro cart
  induction cart with
  | nil =>
    intro items _ h
    simp only [dbOrderItems, Except.ok.injEq] at h
    subst h
    exact List.Forall₂.nil
  | cons x rest ih =>
    intro items hids h
    simp only [dbOrderItems] at h
    cases hx : (productFind products ids).find? (fun p => p._id == x._id) with
    | none => simp [hx] at h
    | some p =>
      simp only [hx] at h
      cases hr : dbOrderItems (productFind products ids) rest with
      | error e => simp [hr] at h
      | ok tail =>
        simp only [hr, Except.ok.injEq] at h
        subst h
        have hp : products.find? (fun q => q._id == x._id) = some p := by
          rw [← productFind_find products ids x._id (hids x (List.mem_cons_self _ _))]
          exact hx
        have hpid : p._id = x._id := by simpa using List.find?_some hp
        refine List.Forall₂.cons ⟨rfl, rfl, p, hp, hpid, rfl, rfl, rfl⟩ ?_
        exact ih tail (fun c hc => hids c (List.mem_cons_of_mem _ hc)) hr

theorem dbOrderItems_congr (db : List (Product Money)) :
    ∀ (cart1 cart2 : List (ClientItem Money)),
      cart2.map (fun c => (c._id, c.qty)) = cart1.map (fun c => (c._id, c.qty)) →
      dbOrderItems db cart2 = dbOrderItems db cart1 := by
  intro cart1
  induction cart1 with
  | nil =>
    intro cart2 h
    simp only [List.map_nil, List.map_eq_nil_iff] at h
    rw [h]
  | cons x rest ih =>
    intro cart2 h
    cases cart2 with
    | nil => simp at h
    | cons y rest2 =>
      simp only [List.map_cons, List.cons.injEq, Prod.mk.injEq] at h
      obtain ⟨⟨hid, hq⟩, hrest⟩ := h
      simp only [dbOrderItems, hid, hq, ih rest2 hrest]

/-- The shape of a successful `addOrderItems`. -/
theorem addOrderItems_ok (calcPrices : List (OrderItem Money) → Prices Money)
    (products : List (Product Money)) (newId user : Nat) (body : CreateBody Money)
    (cart : List (ClientItem Money)) (store store' : Store Money) (status : Nat)
    (order : Order Money) (hcart : body.orderItems = some cart)
    (hsucc : addOrderItems calcPrices products newId user body store
      = (store', .json status order)) :
    store' = store ++ [order] ∧
    dbOrderItems (productFind products (cart.map (fun x => x._id))) cart
      = .ok order.orderItems := by
  unfold addOrderItems at hsucc
  rw [hcart] at hsucc
  cases cart with
  | nil => simp at hsucc
  | cons item items =>
    simp only [] at hsucc
    split at hsucc
    · simp at hsucc
    · rename_i dbItems hd
      simp only [saveNew] at hsucc
      cases hany : store.any (fun x => x._id == newId) with
      | true => simp [hany] at hsucc
      | false =>
        simp only [hany, Bool.false_eq_true, if_false, Prod.mk.injEq,
          Response.json.injEq] at hsucc
        obtain ⟨hs, -, ho⟩ := hsucc
        subst ho
        exact ⟨hs.symm, hd⟩

end Creation

section CreationClaims
variable {Money : Type}

/-- C8: when some item of the cart has no record among the looked-up products,
    `addOrderItems` throws "Product not found: " followed by the reference of
    the first such item in cart order, and the collection is returned as it
    was: nothing is stored and no item is dropped. (Such a cart is not empty.) -/
theorem addOrderItems_product_not_found
    (calcPrices : List (OrderItem Money) → Prices Money)
    (products : List (Product Money)) (newId user : Nat) (body : CreateBody Money)
    (cart : List (ClientItem Money)) (store : Store Money)
    (hcart : body.orderItems = some cart)
    (hmiss : ∃ c ∈ cart,
      ∀ p ∈ productFind products (cart.map (fun x => x._id)), p._id ≠ c._id) :
    ∃ c, cart.find? (fun c =>
          !((productFind products (cart.map (fun x => x._id))).any
            (fun p => p._id == c._id))) = some c ∧
      addOrderItems calcPrices products newId user body store
        = (store, .error 200 ("Product not found: " ++ c._id)) := by
  obtain ⟨m, hm, hnone⟩ := hmiss
  have hsome : (cart.find? (fun c =>
      !((productFind products (cart.map (fun x => x._id))).any
        (fun p => p._id == c._id)))).isSome = true := by
    rw [List.find?_isSome]
    refine ⟨m, hm, ?_⟩
    simp only [Bool.not_eq_true', List.any_eq_false, beq_iff_eq]
    exact hnone
  obtain ⟨c, hc⟩ := Option.isSome_iff_exists.mp hsome
  refine ⟨c, hc, ?_⟩
  have hd := dbOrderItems_error_first _ cart c hc
  unfold addOrderItems
  rw [hcart]
  cases cart with
  | nil => simp at hm
  | cons item items =>
    simp only []
    rw [hd]

/-- Worked instance of C8: the cart `unknownCart` is refused and `P9` is
    named. -/
theorem addOrderItems_product_not_found_witness :
    ∃ c, unknownCart.find? (fun c =>
          !((productFind sampleProducts (unknownCart.map (fun x => x._id))).any
            (fun p => p._id == c._id))) = some c ∧
      addOrderItems (calcPricesAt 15 10000 1000) sampleProducts 3 7
          ⟨some unknownCart, "a", "PayPal"⟩ [sampleOrder]
        = ([sampleOrder], .error 200 ("Product not found: " ++ c._id)) :=
  addOrderItems_product_not_found (calcPricesAt 15 10000 1000) sampleProducts 3 7
    ⟨some unknownCart, "a", "PayPal"⟩ unknownCart [sampleOrder] rfl
    ⟨⟨"P9", "", "", 0, .number (.finite 1)⟩, by decide, by decide⟩

/-- C9: after a successful `addOrderItems` the new order is appended to the
    collection; its line items follow the cart item by item, with `product`
    the client's reference, `qty` the `Number(..)` of the client's quantity, and
    `name`, `image`
    and `price` those of the product found under that reference; and a second
    body with the same references and quantities, shipping address and payment
    method, whatever names, images and prices it submits, gives the same
    collection and the same order. -/
theorem addOrderItems_snapshot (calcPrices : List (OrderItem Money) → Prices Money)
    (products : List (Product Money)) (newId user : Nat)
    (body1 body2 : CreateBody Money) (cart1 cart2 : List (ClientItem Money))
    (store store' : Store Money) (status : Nat) (order : Order Money)
    (h1 : body1.orderItems = some cart1) (h2 : body2.orderItems = some cart2)
    (hkey : cart2.map (fun c => (c._id, c.qty)) = cart1.map (fun c => (c._id, c.qty)))
    (hship : body2.shippingAddress = body1.shippingAddress)
    (hpay : body2.paymentMethod = body1.paymentMethod)
    (hsucc : addOrderItems calcPrices products newId user body1 store
      = (store', .json status order)) :
    store' = store ++ [order] ∧
    order.orderItems.length = cart1.length ∧
    List.Forall₂ (fun c it =>
      it.product = c._id ∧ it.qty = Number c.qty ∧
      ∃ p, products.find? (fun q => q._id == c._id) = some p ∧ p._id = c._id ∧
        it.name = p.name ∧ it.image = p.image ∧ it.price = p.price)
      cart1 order.orderItems ∧
    (calcPrices order.orderItems).itemsPrice = order.itemsPrice ∧
    (calcPrices order.orderItems).taxPrice = order.taxPrice ∧
    (calcPrices order.orderItems).shippingPrice = order.shippingPrice ∧
    (calcPrices order.orderItems).totalPrice = order.totalPrice ∧
    addOrderItems calcPrices products newId user body2 store
      = (store', .json status order) := by
  obtain ⟨hstore, hitems⟩ :=
    addOrderItems_ok calcPrices products newId user body1 cart1 store store' status order
      h1 hsucc
  have hids : ∀ c ∈ cart1, (cart1.map (fun x => x._id)).contains c._id = true := by
    intro c hc
    simp only [List.contains_eq_any_beq, List.any_eq_true, beq_iff_eq]
    exact ⟨c._id, List.mem_map_of_mem _ hc, rfl⟩
  have hall := dbOrderItems_ok products _ cart1 order.orderItems hids hitems
  have hidmap : cart2.map (fun x => x._id) = cart1.map (fun x => x._id) := by
    have := congrArg (List.map Prod.fst) hkey
    simpa [List.map_map, Function.comp] using this
  have hsame : addOrderItems calcPrices products newId user body2 store
      = addOrderItems calcPrices products newId user body1 store := by
    unfold addOrderItems
    rw [h1, h2]
    cases cart1 with
    | nil =>
      simp only [List.map_nil, List.map_eq_nil_iff] at hkey
      rw [hkey]
    | cons x rest =>
      cases cart2 with
      | nil => simp at hkey
      | cons y rest2 =>
        simp only []
        rw [hidmap, dbOrderItems_congr _ (x :: rest) (y :: rest2) hkey, hship, hpay]
  have hprices : (calcPrices order.orderItems).itemsPrice = order.itemsPrice ∧
      (calcPrices order.orderItems).taxPrice = order.taxPrice ∧
      (calcPrices order.orderItems).shippingPrice = order.shippingPrice ∧
      (calcPrices order.orderItems).totalPrice = order.totalPrice := by
    unfold addOrderItems at hsucc
    rw [h1] at hsucc
    cases cart1 with
    | nil => simp at hsucc
    | cons item items =>
      simp only [] at hsucc
      split at hsucc
      · simp at hsucc
      · simp only [saveNew] at hsucc
        split at hsucc
        · simp at hsucc
        · rename_i heq
          split at heq
          · simp at heq
          · simp only [Prod.mk.injEq, Response.json.injEq] at hsucc
            obtain ⟨-, -, ho⟩ := hsucc
            subst ho
            exact ⟨rfl, rfl, rfl, rfl⟩
  exact ⟨hstore, (List.Forall₂.length_eq hall).symm, hall, hprices.1, hprices.2.1,
    hprices.2.2.1, hprices.2.2.2, hsame.trans hsucc⟩

end CreationClaims

section LedgerInstances

/-- Worked instance of C3: order 2 cannot be paid with the transaction id
    carried by order 1. -/
theorem transaction_id_carried_once_witness :
    updateOrderToPaid fixedString checkIfNewTransaction 9 2 samplePay ⟨true, "20.00"⟩
        [paidOrder sampleOrder 5 samplePay, { sampleOrder with _id := 2 }]
      = ([paidOrder sampleOrder 5 samplePay, { sampleOrder with _id := 2 }],
          .error 400 "Transaction has already been used") ∧
    ∀ tx, (run (calcPricesAt 15 10000 1000) fixedString checkIfNewTransaction []
      replayOps).1.countP (hasTransaction tx) ≤ 1 :=
  transaction_id_carried_once (calcPricesAt 15 10000 1000) fixedString 9 2 samplePay
    ⟨true, "20.00"⟩ [paidOrder sampleOrder 5 samplePay, { sampleOrder with _id := 2 }]
    replayOps (by decide) (by decide)
    ⟨paidOrder sampleOrder 5 samplePay, by decide, by decide⟩

/-- C4 fails on the code: in `replayOps` the two payments carrying `TX1` both
    succeed, the first on order 1 and the second on order 2, because the
    payment of order 1 with `TX2` in between took `TX1` off the record. -/
theorem replay_settles_two_orders :
    (run (calcPricesAt 15 10000 1000) fixedString checkIfNewTransaction []
      replayOps).2.map settled
      = [some (201, 1, none), some (201, 2, none), some (200, 1, some "TX1"),
         some (200, 1, some "TX2"), some (200, 2, some "TX1")] := by
  decide

end LedgerInstances

section CreationInstances

/-- Worked instance of C9: `sampleCart` and `tamperedCart` create the same
    order, priced from the catalogue. -/
theorem addOrderItems_snapshot_witness :
    [sampleCreated] = [] ++ [sampleCreated] ∧
    sampleCreated.orderItems.length
      = [({ _id := "P1", name := "x", image := "y", price := 1, qty := .number (.finite 2) } :
          ClientItem Int)].length ∧
    List.Forall₂ (fun c it =>
      it.product = c._id ∧ it.qty = Number c.qty ∧
      ∃ p, sampleProducts.find? (fun q => q._id == c._id) = some p ∧ p._id = c._id ∧
        it.name = p.name ∧ it.image = p.image ∧ it.price = p.price)
      [({ _id := "P1", name := "x", image := "y", price := 1, qty := .number (.finite 2) } : ClientItem Int)]
      sampleCreated.orderItems ∧
    (calcPricesAt 15 10000 1000 sampleCreated.orderItems).itemsPrice
      = sampleCreated.itemsPrice ∧
    (calcPricesAt 15 10000 1000 sampleCreated.orderItems).taxPrice
      = sampleCreated.taxPrice ∧
    (calcPricesAt 15 10000 1000 sampleCreated.orderItems).shippingPrice
      = sampleCreated.shippingPrice ∧
    (calcPricesAt 15 10000 1000 sampleCreated.orderItems).totalPrice
      = sampleCreated.totalPrice ∧
    addOrderItems (calcPricesAt 15 10000 1000) sampleProducts 1 7 tamperedCart []
      = ([sampleCreated], .json 201 sampleCreated) :=
  addOrderItems_snapshot (calcPricesAt 15 10000 1000) sampleProducts 1 7 sampleCart
    tamperedCart [{ _id := "P1", name := "x", image := "y", price := 1, qty := .number (.finite 2) }]
    [{ _id := "P1", name := "z", image := "w", price := 0, qty := .number (.finite 2) }] [] [sampleCreated]
    201 sampleCreated rfl rfl (by decide) rfl rfl (by decide)

/-- C10 fails as stated: a cart asking for zero units of an existing product
    is accepted and the order is stored with a line item of quantity 0, which
    is not an integer greater than or equal to 1. -/
theorem zero_quantity_counterexample :
    ∃ o, addOrderItems (calcPricesAt 15 10000 1000) sampleProducts 1 7 zeroCart []
        = ([o], .json 201 o) ∧
      o.orderItems.map (fun it => it.qty) = [.finite 0] ∧
      ¬ (∀ it ∈ o.orderItems, it.qty.isPositiveInteger = true) :=
  ⟨{ sampleCreated with
      orderItems := [{ product := "P1", name := "Phone", image := "/p1.jpg", price := 1000, qty := .finite 0 }]
      itemsPrice := 0, taxPrice := 0, shippingPrice := 1000, totalPrice := 1000 },
    by decide, by decide, by decide⟩

end CreationInstances

section Quantities
variable {Money : Type}

theorem dbOrderItems_qty (db : List (Product Money)) :
    ∀ (cart : List (ClientItem Money)) (items : List (OrderItem Money)),
      dbOrderItems db cart = .ok items →
      items.map (fun it => it.qty) = cart.map (fun c => Number c.qty) := by
  intro cart
  induction cart with
  | nil =>
    intro items h
    simp only [dbOrderItems, Except.ok.injEq] at h
    subst h
    rfl
  | cons x rest ih =>
    intro items h
    simp only [dbOrderItems] at h
    split at h
    · simp at h
    · split at h
      · simp at h
      · rename_i tail hr
        simp only [Except.ok.injEq] at h
        subst h
        simp only [List.map_cons, ih tail hr]

/-- When every item of the cart has a record in `db`, the callback throws for
    no item, whatever the quantities. -/
theorem dbOrderItems_total (db : List (Product Money)) :
    ∀ (cart : List (ClientItem Money)),
      (∀ c ∈ cart, ∃ p ∈ db, p._id = c._id) →
      ∃ items, dbOrderItems db cart = .ok items := by
  intro cart
  induction cart with
  | nil => intro _; exact ⟨[], rfl⟩
  | cons x rest ih =>
    intro h
    obtain ⟨tail, htail⟩ := ih (fun c hc => h c (List.mem_cons_of_mem _ hc))
    obtain ⟨p, hp, hpid⟩ := h x (List.mem_cons_self _ _)
    have hsome : (db.find? (fun q => q._id == x._id)).isSome = true := by
      rw [List.find?_isSome]
      exact ⟨p, hp, by simpa using hpid⟩
    obtain ⟨m, hm⟩ := Option.isSome_iff_exists.mp hsome
    refine ⟨{ product := x._id, name := m.name, image := m.image, price := m.price
              qty := Number x.qty } :: tail, ?_⟩
    simp only [dbOrderItems, hm, htail]

/-- C10, amended: `addOrderItems` makes no check on quantities. For every
    non-empty cart whose references all have product records, and an order
    id not yet stored, the call succeeds whatever the submitted quantities
    are, and the stored quantities are `Number(qty)` of the submitted ones,
    item by item; so every stored quantity is an integer of at least 1
    exactly when `Number(qty)` of every submitted quantity is. -/
theorem addOrderItems_quantities (calcPrices : List (OrderItem Money) → Prices Money)
    (products : List (Product Money)) (newId user : Nat) (body : CreateBody Money)
    (cart : List (ClientItem Money)) (store : Store Money)
    (hcart : body.orderItems = some cart) (hne : cart ≠ [])
    (hfound : ∀ c ∈ cart, ∃ p ∈ products, p._id = c._id)
    (hfresh : store.any (fun o => o._id == newId) = false) :
    ∃ order, addOrderItems calcPrices products newId user body store
        = (store ++ [order], .json 201 order) ∧
      order.orderItems.map (fun it => it.qty) = cart.map (fun c => Number c.qty) ∧
      ((∀ it ∈ order.orderItems, it.qty.isPositiveInteger = true) ↔
        (∀ c ∈ cart, (Number c.qty).isPositiveInteger = true)) := by
  have hdb : ∀ c ∈ cart,
      ∃ p ∈ productFind products (cart.map (fun x => x._id)), p._id = c._id := by
    intro c hc
    obtain ⟨p, hp, hpid⟩ := hfound c hc
    refine ⟨p, ?_, hpid⟩
    simp only [productFind, List.mem_filter, List.contains_eq_any_beq, List.any_eq_true,
      beq_iff_eq]
    exact ⟨hp, c._id, List.mem_map_of_mem _ hc, hpid⟩
  obtain ⟨items, hitems⟩ := dbOrderItems_total _ cart hdb
  have hq := dbOrderItems_qty _ cart items hitems
  have hres : ∃ order, addOrderItems calcPrices products newId user body store
      = (store ++ [order], .json 201 order) ∧ order.orderItems = items := by
    unfold addOrderItems
    rw [hcart]
    cases cart with
    | nil => exact absurd rfl hne
    | cons item rest =>
      simp only []
      rw [hitems]
      simp only [saveNew, hfresh, Bool.false_eq_true, if_false]
      exact ⟨_, rfl, rfl⟩
  obtain ⟨order, hr, ho⟩ := hres
  refine ⟨order, hr, ?_, ?_⟩
  · rw [ho]; exact hq
  · have hl : (∀ it ∈ order.orderItems, it.qty.isPositiveInteger = true) ↔
        ∀ q ∈ order.orderItems.map (fun it => it.qty), q.isPositiveInteger = true := by
      simp
    have hrr : (∀ c ∈ cart, (Number c.qty).isPositiveInteger = true) ↔
        ∀ q ∈ cart.map (fun c => Number c.qty), q.isPositiveInteger = true := by
      simp
    rw [hl, hrr, ho, hq]

/-- Worked instance of the amended C10: a cart asking for -1 unit of `P1` and
    then for `null` units of `P1` is accepted. -/
theorem addOrderItems_quantities_witness :
    ∃ order, addOrderItems (calcPricesAt 15 10000 1000) sampleProducts 2 7
          ⟨some negativeCart, "a", "PayPal"⟩ [sampleOrder]
        = ([sampleOrder] ++ [order], .json 201 order) ∧
      order.orderItems.map (fun it => it.qty)
        = negativeCart.map (fun c => Number c.qty) ∧
      ((∀ it ∈ order.orderItems, it.qty.isPositiveInteger = true) ↔
        (∀ c ∈ negativeCart, (Number c.qty).isPositiveInteger = true)) :=
  addOrderItems_quantities (calcPricesAt 15 10000 1000) sampleProducts 2 7
    ⟨some negativeCart, "a", "PayPal"⟩ negativeCart [sampleOrder] rfl (by decide)
    (by decide) (by decide)

end Quantities

end ProShop
